import Mathlib

/-!
Verification of the PRYME-KPI progress-calculation and target-tracking
engine against its natural-language specification.

The Python source is shallowly embedded: each spreadsheet-backed store is a
list of typed rows, each fallible fetch is an `Except Unit` value (`error`
marks an HttpError or other exception raised by the underlying API call),
Python ints are `Nat`/`Int`, Python floats are `Rat`, and each top-level
function of the source is translated into a Lean function of the same name.
Source references give the file and line numbers the definition embeds.
-/

/-- Calendar timestamp. Only the fields the embedded code inspects are kept:
`get_user_kpi_records` (google_sheets.py:856-861) filters on
`record_date.month` and `record_date.year`; `day` keeps distinct dates
distinct. -/
structure DateTime where
  year : Nat
  month : Nat
  day : Nat
  deriving DecidableEq

/-- One row of the Targets sheet, as parsed by `get_monthly_targets`
(google_sheets.py:684-691): `int(row[3])` for the meetup target,
`float(row[4])` for the sales target. `created_date` is an opaque timestamp
tick (the source stores `datetime.now().isoformat()`). -/
structure TargetRow where
  user_id : Nat
  month : Nat
  year : Nat
  meetup_target : Nat
  sales_target : Rat
  created_date : Nat
  deriving DecidableEq

/-- One row of the KPI_Records sheet, as parsed by `get_user_kpi_records`
(google_sheets.py:872-879). `value` is an int for meetups and a float for
sales in the source; both embed into `Rat`. -/
structure RecordRow where
  user_id : Nat
  record_date : DateTime
  record_type : String
  value : Rat
  photo_link : String
  submission_date : DateTime
  deriving DecidableEq

/-- One row of the Users sheet, as parsed by `get_user_by_id`
(google_sheets.py:404-413). -/
structure UserRow where
  user_id : Nat
  name : String
  nationality : String
  phone : String
  upline : String
  registration_date : String
  role : String
  deriving DecidableEq

/-- Key match used by `get_monthly_targets` and `set_monthly_targets`
(google_sheets.py:680-683 and 593-597): the source compares
`str(row[0]) == str(user_id)` etc.; `toString` on naturals is injective, so
equality on `Nat` is the same test. -/
def targetKeyMatches (user_id month year : Nat) (t : TargetRow) : Bool :=
  t.user_id == user_id && t.month == month && t.year == year

/-- Embeds `get_monthly_targets(user_id, month, year)`
(google_sheets.py:645-700). The fetch of the Targets sheet is the `Except`
argument; both `except` handlers (lines 695-700) return `None`, and the scan
over `values[1:]` returns the first row whose key matches. -/
def get_monthly_targets (tFetch : Except Unit (List TargetRow))
    (user_id month year : Nat) : Option TargetRow :=
  match tFetch with
  | Except.error _ => none
  | Except.ok rows => rows.find? (targetKeyMatches user_id month year)

/-- Row filter of `get_user_kpi_records` (google_sheets.py:852-864): the user
match on `row[0]`, then `continue` on a month mismatch of `record_date`, a
year mismatch of `record_date`, or a `record_type` mismatch. The
`submission_date` column (row[5]) is never consulted. -/
def matchesFilters (user_id : Nat) (month? year? : Option Nat)
    (record_type? : Option String) (r : RecordRow) : Bool :=
  r.user_id == user_id
    && (match month? with
        | some m => r.record_date.month == m
        | none => true)
    && (match year? with
        | some y => r.record_date.year == y
        | none => true)
    && (match record_type? with
        | some t => r.record_type == t
        | none => true)

/-- Embeds `get_user_kpi_records(user_id, month, year, record_type)`
(google_sheets.py:816-891). Both `except` handlers (lines 886-891) return
the empty list, swallowing a failed fetch of the Records sheet. -/
def get_user_kpi_records (rFetch : Except Unit (List RecordRow))
    (user_id : Nat) (month? year? : Option Nat)
    (record_type? : Option String) : List RecordRow :=
  match rFetch with
  | Except.error _ => []
  | Except.ok rows => rows.filter (matchesFilters user_id month? year? record_type?)

/-- Sum of the `value` column, `sum(record['value'] for record in records)`
(google_sheets.py:917-918). -/
def sumValues (records : List RecordRow) : Rat :=
  (records.map RecordRow.value).sum

/-- Round-half-to-even on a rational, the semantics of the builtin `round`
Python applies at google_sheets.py:935 and 938. -/
def roundHalfEven (x : Rat) : Int :=
  if x - ⌊x⌋ > 1 / 2 then ⌊x⌋ + 1
  else if x - ⌊x⌋ < 1 / 2 then ⌊x⌋
  else if ⌊x⌋ % 2 == 0 then ⌊x⌋ else ⌊x⌋ + 1

/-- Embeds `round(value, 2)`: round to two decimal places
(google_sheets.py:935 and 938). -/
def round2 (x : Rat) : Rat :=
  (roundHalfEven (x * 100) : Rat) / 100

/-- Progress dictionary built by `calculate_user_progress`
(google_sheets.py:929-941). -/
structure ProgressOut where
  user_id : Nat
  month : Nat
  year : Nat
  current_meetups : Rat
  meetup_target : Nat
  meetup_percentage : Rat
  current_sales : Rat
  sales_target : Rat
  sales_percentage : Rat
  meetup_records_count : Nat
  sales_records_count : Nat
  deriving DecidableEq

/-- Lines 912-943 of `calculate_user_progress` (google_sheets.py): the
progress dictionary built once a target row was found. The two `Except`
arguments are the two independent Records-sheet fetches made by the
`get_user_kpi_records` calls of lines 913-914; percentages follow lines
920-927 and are rounded to two decimal places in the result dictionary
(lines 935, 938). -/
def progressFromTargets (targets : TargetRow)
    (mFetch sFetch : Except Unit (List RecordRow))
    (user_id month year : Nat) : ProgressOut :=
    let meetup_records := get_user_kpi_records mFetch user_id (some month) (some year) (some "meetup")
    let sales_records := get_user_kpi_records sFetch user_id (some month) (some year) (some "sale")
    let current_meetups := sumValues meetup_records
    let current_sales := sumValues sales_records
    let meetup_percentage : Rat :=
      if 0 < targets.meetup_target then
        min ((current_meetups / (targets.meetup_target : Rat)) * 100) 100
      else 0
    let sales_percentage : Rat :=
      if 0 < targets.sales_target then
        min ((current_sales / targets.sales_target) * 100) 100
      else 0
    { user_id := user_id
      month := month
      year := year
      current_meetups := current_meetups
      meetup_target := targets.meetup_target
      meetup_percentage := round2 meetup_percentage
      current_sales := current_sales
      sales_target := targets.sales_target
      sales_percentage := round2 sales_percentage
      meetup_records_count := meetup_records.length
      sales_records_count := sales_records.length }

/-- Embeds the body of `calculate_user_progress` (google_sheets.py:893-947):
no target row found means `None` (lines 908-910), otherwise the progress
dictionary above. The split into `progressFromTargets` is only a naming of
the source's lines 912-943. -/
def calculate_user_progress (tFetch : Except Unit (List TargetRow))
    (mFetch sFetch : Except Unit (List RecordRow))
    (user_id month year : Nat) : Option ProgressOut :=
  match get_monthly_targets tFetch user_id month year with
  | none => none
  | some targets => some (progressFromTargets targets mFetch sFetch user_id month year)

/-- Derived-progress dataclass of models.py:328-352. -/
structure UserProgress where
  user_id : Nat
  current_meetups : Rat
  meetup_target : Nat
  meetup_percentage : Rat
  current_sales : Rat
  sales_target : Rat
  sales_percentage : Rat
  month : Nat
  year : Nat
  deriving DecidableEq

/-- Embeds `UserProgress.calculate_percentages` (models.py:406-418): the
same clamped formula as google_sheets.py:920-927, with no rounding. -/
def UserProgress.calculate_percentages (p : UserProgress) : UserProgress :=
  let mp : Rat :=
    if 0 < p.meetup_target then
      min ((p.current_meetups / (p.meetup_target : Rat)) * 100) 100
    else 0
  let sp : Rat :=
    if 0 < p.sales_target then
      min ((p.current_sales / p.sales_target) * 100) 100
    else 0
  { p with meetup_percentage := mp, sales_percentage := sp }

/-- Overall completion of `utils.format_progress_summary`
(utils.py:184-187): the raw ratios, with no clamp, averaged. -/
def format_progress_summary_overall (meetup_current : Rat) (meetup_target : Nat)
    (sales_current sales_target : Rat) : Rat :=
  let meetup_pct : Rat :=
    if 0 < meetup_target then meetup_current / (meetup_target : Rat) * 100 else 0
  let sales_pct : Rat :=
    if 0 < sales_target then sales_current / sales_target * 100 else 0
  (meetup_pct + sales_pct) / 2

/-- Tier label of `utils.format_progress_summary` (utils.py:189-203). -/
def format_progress_summary_status (overall_pct : Rat) : String :=
  if overall_pct >= 100 then "All targets achieved!"
  else if overall_pct >= 75 then "Excellent progress!"
  else if overall_pct >= 50 then "Good progress!"
  else if overall_pct >= 25 then "Making progress!"
  else "Just getting started!"

/-- Overall completion of `sales.format_kpi_display` (sales.py:565-567): the
mean of the two percentage fields of the progress dictionary produced by
`calculate_user_progress`, which are already clamped. -/
def format_kpi_display_overall (meetup_percentage sales_percentage : Rat) : Rat :=
  (meetup_percentage + sales_percentage) / 2

/-- Tier label of `sales.format_kpi_display` (sales.py:569-584). -/
def format_kpi_display_status (overall_pct : Rat) : String :=
  if overall_pct >= 100 then "All targets achieved!"
  else if overall_pct >= 75 then "Excellent progress!"
  else if overall_pct >= 50 then "Good progress!"
  else if overall_pct >= 25 then "Making progress!"
  else "Just getting started!"

/-- Embeds `get_user_by_id(user_id)` (google_sheets.py:371-422): the scan
over `values[1:]` returns the first row whose first column matches. -/
def get_user_by_id (rows : List UserRow) (user_id : Nat) : Option UserRow :=
  rows.find? (fun r => r.user_id == user_id)

/-- Embeds `register_user(user_data)` (google_sheets.py:312-369): a duplicate
check through `get_user_by_id` (lines 332-336) returns `False` with no
write; otherwise the row is appended. -/
def register_user (rows : List UserRow) (u : UserRow) : Bool × List UserRow :=
  match get_user_by_id rows u.user_id with
  | some _ => (false, rows)
  | none => (true, rows ++ [u])

/-- Replace the first row satisfying `p` by `newRow`, the effect of the
`values().update` on row `row_index` in `set_monthly_targets`
(google_sheets.py:591-615): the scan takes the first matching row. -/
def updateFirst (rows : List TargetRow) (p : TargetRow → Bool)
    (newRow : TargetRow) : List TargetRow :=
  match rows with
  | [] => []
  | r :: rs => if p r then newRow :: rs else r :: updateFirst rs p newRow

/-- Embeds `set_monthly_targets(user_id, month, year, meetup_target,
sales_target)` (google_sheets.py:549-643): if `get_monthly_targets` finds an
existing row (line 569), the first key-matching row is overwritten with the
new values and a fresh `created_date` (lines 578-617); otherwise the new row
is appended (lines 618-634). `now` is the `datetime.now().isoformat()`
tick of line 576. -/
def set_monthly_targets (rows : List TargetRow) (user_id month year : Nat)
    (meetup_target : Nat) (sales_target : Rat) (now : Nat) : List TargetRow :=
  match rows.find? (targetKeyMatches user_id month year) with
  | some _ =>
      updateFirst rows (targetKeyMatches user_id month year)
        ⟨user_id, month, year, meetup_target, sales_target, now⟩
  | none => rows ++ [⟨user_id, month, year, meetup_target, sales_target, now⟩]

/-- Number of Targets rows carrying a given key. -/
def countTargetKey (rows : List TargetRow) (user_id month year : Nat) : Nat :=
  rows.countP (targetKeyMatches user_id month year)

/-- Embeds `record_kpi_submission(user_id, record_type, value, photo_link,
record_date)` (google_sheets.py:755-814): the only validation is
`record_type not in ['meetup', 'sale']` (lines 774-777); any `value` is
appended to the Records sheet. `now` is the submission timestamp of line
788. -/
def record_kpi_submission (rows : List RecordRow) (user_id : Nat)
    (record_type : String) (value : Rat) (photo_link : String)
    (record_date now : DateTime) : Bool × List RecordRow :=
  if record_type == "meetup" || record_type == "sale" then
    (true, rows ++ [⟨user_id, record_date, record_type, value, photo_link, now⟩])
  else (false, rows)

/-- Acceptance test of the conversational sale-amount handler
`sales_amount_input` (sales.py:1085-1117): after `float()` parsing the
amount is re-prompted when `sales_amount < 0` or when
`sales_amount > 1000000`; everything else advances to the photo step. -/
def sales_amount_input_accepts (sales_amount : Rat) : Bool :=
  if sales_amount < 0 then false
  else if sales_amount > 1000000 then false
  else true

/-- Sale-value branch of `KPIRecord.validate` (models.py:279-283):
`value <= 0` and `value > 100000` raise `ValueError`. -/
def KPIRecord_validate_sale_value (value : Rat) : Bool :=
  if value <= 0 then false
  else if value > 100000 then false
  else true

/-- Whitespace class of Python `str.strip()` and of `\s` in the phone
pattern of models.py:82, restricted to ASCII. -/
def pyIsSpace (c : Char) : Bool :=
  c == ' ' || c == '\t' || c == '\n' || c == '\r' || c == '\x0b' || c == '\x0c'

/-- Embeds Python `str.strip()`: drop leading and trailing whitespace. -/
def pyStrip (s : List Char) : List Char :=
  ((s.dropWhile pyIsSpace).reverse.dropWhile pyIsSpace).reverse

/-- Character class of the phone pattern `[\d\s\+\-\(\)]` of models.py:82,
with `\d` read as the ASCII digits. -/
def phoneCharOk (c : Char) : Bool :=
  c.isDigit || pyIsSpace c || c == '+' || c == '-' || c == '(' || c == ')'

/-- Phone branch of `User.validate` (models.py:79-88): the stripped string
must be non-empty, fully match the character class, and have length at
least 7 and at most 20. No other test is applied. -/
def User_validate_phone (phone : List Char) : Bool :=
  let t := pyStrip phone
  !t.isEmpty && t.all phoneCharOk
    && decide (7 <= t.length) && decide (t.length <= 20)

/-- One row of the Admin_Config sheet (auth.py:153-158). -/
structure AdminRow where
  user_id : Nat
  name : String
  added_date : Nat
  deriving DecidableEq

/-- State of `RoleManager` (auth.py:25-30) together with its backing store.
`admin_sheet = none` models a fetch of the Admin_Config sheet that returns
no values at all (the `if not values: return False` path of
auth.py:207-209); a `none` entry inside the list is a row cleared by
`remove_admin` (auth.py:222-226). `env_admin_ids` is the `ADMIN_USER_IDS`
environment list of auth.py:41-47. -/
structure AuthState where
  env_admin_ids : List Nat
  admin_sheet : Option (List (Option AdminRow))
  admin_cache : List Nat
  cache_initialized : Bool
  deriving DecidableEq

/-- Python `set.add`: membership-preserving insert into the cache. -/
def cacheAdd (cache : List Nat) (u : Nat) : List Nat :=
  if cache.contains u then cache else u :: cache

/-- Embeds `RoleManager._initialize_admin_cache` (auth.py:32-59): the cache
absorbs the environment ids, then the ids read from the Admin_Config sheet
(`_get_admin_ids_from_sheets`, auth.py:61-100, which skips cleared rows),
and the initialized flag is set. -/
def initialize_admin_cache (s : AuthState) : AuthState :=
  let cache1 := s.env_admin_ids.foldl cacheAdd s.admin_cache
  let sheetIds : List Nat :=
    match s.admin_sheet with
    | none => []
    | some rows => rows.filterMap (fun r? => r?.map AdminRow.user_id)
  { s with admin_cache := sheetIds.foldl cacheAdd cache1, cache_initialized := true }

/-- Embeds `RoleManager.is_admin` (auth.py:116-130): initialize the cache on
first use, then a pure membership test. The state is returned because the
lazy initialization mutates it. -/
def is_admin (s : AuthState) (u : Nat) : Bool × AuthState :=
  let s1 := if s.cache_initialized then s else initialize_admin_cache s
  (s1.admin_cache.contains u, s1)

/-- Embeds `RoleManager.add_admin` (auth.py:132-178): an existing admin is a
no-op returning `True` (lines 148-151); otherwise the row is appended to the
Admin_Config sheet (lines 156-168) and the cache is updated in the same call
(line 171). -/
def add_admin (s : AuthState) (u : Nat) (name : String) (now : Nat) : Bool × AuthState :=
  if (is_admin s u).fst then (true, (is_admin s u).snd)
  else
    (true,
      { (is_admin s u).snd with
          admin_sheet := some ((((is_admin s u).snd).admin_sheet.getD []) ++ [some ⟨u, name, now⟩]),
          admin_cache := cacheAdd (((is_admin s u).snd).admin_cache) u })

/-- Clear the first sheet row whose first column matches `u`, the effect of
the `values().clear` call in `remove_admin` (auth.py:211-228). -/
def clearFirstAdminRow : List (Option AdminRow) → Nat → List (Option AdminRow)
  | [], _ => []
  | none :: rs, u => none :: clearFirstAdminRow rs u
  | some r :: rs, u =>
      if r.user_id == u then none :: rs else some r :: clearFirstAdminRow rs u

/-- Embeds `RoleManager.remove_admin` (auth.py:180-238): a non-admin is a
no-op returning `True` (lines 195-198); a fetch returning no values returns
`False` with no cache change (lines 207-209); otherwise the matching sheet
row is cleared and the id is discarded from the cache in the same call
(lines 211-231). -/
def remove_admin (s : AuthState) (u : Nat) : Bool × AuthState :=
  if !(is_admin s u).fst then (true, (is_admin s u).snd)
  else
    match ((is_admin s u).snd).admin_sheet with
    | none => (false, (is_admin s u).snd)
    | some rows =>
        (true,
          { (is_admin s u).snd with
              admin_sheet := some (clearFirstAdminRow rows u),
              admin_cache := (((is_admin s u).snd).admin_cache).filter (fun x => x != u) })

/-- The floor is a lower bound for round-half-to-even. -/
theorem floor_le_roundHalfEven (x : Rat) : ⌊x⌋ ≤ roundHalfEven x := by
  unfold roundHalfEven
  split_ifs <;> omega

/-- Round-half-to-even of a nonnegative rational is nonnegative. -/
theorem roundHalfEven_nonneg {x : Rat} (hx : 0 ≤ x) : 0 ≤ roundHalfEven x := by
  have h0 : 0 ≤ ⌊x⌋ := Int.floor_nonneg.mpr hx
  have h1 := floor_le_roundHalfEven x
  omega

/-- Round-half-to-even never exceeds an integer upper bound of its input. -/
theorem roundHalfEven_le {x : Rat} {n : Int} (hx : x ≤ n) : roundHalfEven x ≤ n := by
  have hfl : (⌊x⌋ : Rat) ≤ x := Int.floor_le x
  have hf : ⌊x⌋ ≤ n := by
    have h := Int.floor_mono hx
    rwa [Int.floor_intCast] at h
  unfold roundHalfEven
  split_ifs with h1 h2 h3
  · have hlt : (⌊x⌋ : Rat) < (n : Rat) := by linarith
    have : ⌊x⌋ < n := by exact_mod_cast hlt
    omega
  · exact hf
  · exact hf
  · have heq : x - ⌊x⌋ = 1 / 2 := le_antisymm (not_lt.mp h1) (not_lt.mp h2)
    have hlt : (⌊x⌋ : Rat) < (n : Rat) := by
      have : (⌊x⌋ : Rat) = x - 1 / 2 := by linarith
      have hxn : (x : Rat) ≤ (n : Rat) := hx
      linarith
    have : ⌊x⌋ < n := by exact_mod_cast hlt
    omega

/-- Rounding to two decimals preserves nonnegativity. -/
theorem round2_nonneg {x : Rat} (hx : 0 ≤ x) : 0 ≤ round2 x := by
  unfold round2
  have h : 0 ≤ roundHalfEven (x * 100) := roundHalfEven_nonneg (by positivity)
  have hc : (0 : Rat) ≤ (roundHalfEven (x * 100) : Rat) := by exact_mod_cast h
  positivity

/-- Rounding to two decimals preserves the upper bound 100. -/
theorem round2_le_100 {x : Rat} (hx : x ≤ 100) : round2 x ≤ 100 := by
  unfold round2
  have h : roundHalfEven (x * 100) ≤ (10000 : Int) := by
    apply roundHalfEven_le
    push_cast
    linarith
  have hc : (roundHalfEven (x * 100) : Rat) ≤ 10000 := by exact_mod_cast h
  linarith

/-- Rounding to two decimals fixes zero. -/
theorem round2_zero : round2 0 = 0 := by
  norm_num [round2, roundHalfEven]

/-- Sums of nonnegative record values are nonnegative. -/
theorem sumValues_nonneg {records : List RecordRow}
    (h : ∀ r ∈ records, 0 ≤ r.value) : 0 ≤ sumValues records := by
  unfold sumValues
  apply List.sum_nonneg
  intro x hx
  obtain ⟨r, hr, rfl⟩ := List.mem_map.mp hx
  exact h r hr

/-- A Records-sheet fetch whose rows all carry nonnegative values. The
error case carries no rows. -/
def valuesNonneg : Except Unit (List RecordRow) → Prop
  | Except.error _ => True
  | Except.ok rows => ∀ r ∈ rows, 0 ≤ r.value

/-- Filtering a fetch with nonnegative values yields records with
nonnegative values. -/
theorem get_user_kpi_records_values_nonneg {rFetch : Except Unit (List RecordRow)}
    (hf : valuesNonneg rFetch) (user_id : Nat) (month? year? : Option Nat)
    (record_type? : Option String) :
    ∀ r ∈ get_user_kpi_records rFetch user_id month? year? record_type?, 0 ≤ r.value := by
  cases rFetch with
  | error e => intro r hr; simp [get_user_kpi_records] at hr
  | ok rows =>
    intro r hr
    exact hf r (List.mem_filter.mp hr).1

/-- The clamped percentage of a nonnegative current value against a
positive target lies in the interval from 0 to 100. -/
theorem clamped_pct_bounds {c t : Rat} (hc : 0 ≤ c) (ht : 0 < t) :
    0 ≤ min (c / t * 100) 100 ∧ min (c / t * 100) 100 ≤ 100 :=
  ⟨le_min (mul_nonneg (div_nonneg hc ht.le) (by norm_num)) (by norm_num),
    min_le_right _ _⟩

/-- The freshly written Targets row matches its own key. -/
theorem targetKeyMatches_mk (user_id month year meetup_target : Nat)
    (sales_target : Rat) (now : Nat) :
    targetKeyMatches user_id month year
      ⟨user_id, month, year, meetup_target, sales_target, now⟩ = true := by
  simp [targetKeyMatches]

/-- Overwriting the first matching row makes it the first match. -/
theorem find?_updateFirst {rows : List TargetRow} {p : TargetRow → Bool}
    {x newRow : TargetRow} (h : rows.find? p = some x) (hnew : p newRow = true) :
    (updateFirst rows p newRow).find? p = some newRow := by
  induction rows with
  | nil => simp at h
  | cons r rs ih =>
    by_cases hr : p r
    · simp [updateFirst, hr, List.find?_cons_of_pos _ hnew]
    · have h2 : rs.find? p = some x := by
        rwa [List.find?_cons_of_neg _ hr] at h
      simp [updateFirst, hr, List.find?_cons_of_neg _ hr, ih h2]

/-- Overwriting one matching row with a matching row keeps the match count. -/
theorem countP_updateFirst {rows : List TargetRow} {p : TargetRow → Bool}
    {x newRow : TargetRow} (h : rows.find? p = some x) (hnew : p newRow = true) :
    (updateFirst rows p newRow).countP p = rows.countP p := by
  induction rows with
  | nil => simp at h
  | cons r rs ih =>
    by_cases hr : p r
    · simp [updateFirst, hr, List.countP_cons, hnew]
    · have h2 : rs.find? p = some x := by
        rwa [List.find?_cons_of_neg _ hr] at h
      simp [updateFirst, hr, List.countP_cons, ih h2]

/-- A found row witnesses a positive match count. -/
theorem one_le_countP_of_find? {rows : List TargetRow} {p : TargetRow → Bool}
    {x : TargetRow} (h : rows.find? p = some x) : 1 ≤ rows.countP p :=
  List.countP_pos_iff.mpr ⟨x, List.mem_of_find?_eq_some h, List.find?_some h⟩

/-- After an upsert, the lookup of the key returns the row just written. -/
theorem find?_set_monthly_targets (rows : List TargetRow)
    (user_id month year meetup_target : Nat) (sales_target : Rat) (now : Nat) :
    (set_monthly_targets rows user_id month year meetup_target sales_target now).find?
        (targetKeyMatches user_id month year)
      = some ⟨user_id, month, year, meetup_target, sales_target, now⟩ := by
  unfold set_monthly_targets
  rcases hf : rows.find? (targetKeyMatches user_id month year) with _ | x
  · rw [List.find?_append, hf]
    simp [List.find?_cons_of_pos _ (targetKeyMatches_mk user_id month year meetup_target sales_target now)]
  · exact find?_updateFirst hf (targetKeyMatches_mk user_id month year meetup_target sales_target now)

/-- An upsert into a store holding at most one row for the key leaves
exactly one row for the key. -/
theorem countTargetKey_set_monthly_targets (rows : List TargetRow)
    (user_id month year meetup_target : Nat) (sales_target : Rat) (now : Nat)
    (hinv : countTargetKey rows user_id month year ≤ 1) :
    countTargetKey (set_monthly_targets rows user_id month year meetup_target sales_target now)
      user_id month year = 1 := by
  unfold countTargetKey set_monthly_targets
  rcases hf : rows.find? (targetKeyMatches user_id month year) with _ | x
  · have h0 : rows.countP (targetKeyMatches user_id month year) = 0 :=
      List.countP_eq_zero.mpr (List.find?_eq_none.mp hf)
    rw [List.countP_append, h0]
    simp [List.countP_cons, targetKeyMatches_mk]
  · rw [countP_updateFirst hf (targetKeyMatches_mk user_id month year meetup_target sales_target now)]
    have h1 := one_le_countP_of_find? hf
    unfold countTargetKey at hinv
    omega

/-- A call to `is_admin` always leaves the cache initialized. -/
theorem is_admin_initializes (s : AuthState) (u : Nat) :
    ((is_admin s u).snd).cache_initialized = true := by
  unfold is_admin
  by_cases h : s.cache_initialized
  · simp [h]
  · simp [h, initialize_admin_cache]

/-- On an initialized state, `is_admin` is the pure membership test and
leaves the state unchanged. -/
theorem is_admin_of_initialized {s : AuthState} (h : s.cache_initialized = true)
    (u : Nat) : is_admin s u = (s.admin_cache.contains u, s) := by
  unfold is_admin
  rw [h]
  simp

/-- The boolean `is_admin` returns is the membership test on the state it
returns. -/
theorem is_admin_fst (s : AuthState) (u : Nat) :
    (is_admin s u).fst = ((is_admin s u).snd).admin_cache.contains u := by
  unfold is_admin
  simp

/-- The cache contains an id right after it is added. -/
theorem cacheAdd_contains (cache : List Nat) (u : Nat) :
    (cacheAdd cache u).contains u = true := by
  unfold cacheAdd
  by_cases h : cache.contains u
  · rw [if_pos h]
    exact h
  · rw [if_neg h]
    simp [List.contains_cons]

/-- The cache no longer contains an id after filtering it out. -/
theorem filter_ne_contains (cache : List Nat) (u : Nat) :
    (cache.filter (fun x => x != u)).contains u = false := by
  induction cache with
  | nil => rfl
  | cons a l ih =>
    by_cases h : a = u
    · subst h
      simp [List.filter_cons, ih]
    · simp [List.filter_cons, h, List.contains_cons, ih, Ne.symm h]

/-- Change only the `submission_date` field of a record. -/
def setSubmissionDate (f : DateTime → DateTime) (r : RecordRow) : RecordRow :=
  { r with submission_date := f r.submission_date }

/-- The record filter reads no field that `setSubmissionDate` changes. -/
theorem matchesFilters_setSubmissionDate (user_id : Nat) (month? year? : Option Nat)
    (record_type? : Option String) (f : DateTime → DateTime) (r : RecordRow) :
    matchesFilters user_id month? year? record_type? (setSubmissionDate f r)
      = matchesFilters user_id month? year? record_type? r := rfl

/-- C1: the claim states that every overall completion used for tier
classification is the mean of the clamped percentages, so that raw ratios
of 200 percent meetups and 0 percent sales display as 50 percent overall.
The overall of `utils.format_progress_summary` (utils.py:184-187), used by
the /kpi command and the admin progress view, averages the raw unclamped
ratios: at meetup 2 of target 1 and sales 0 of target 100 it yields 100,
not 50, and the tier reads "All targets achieved!". -/
theorem c1_counterexample :
    format_progress_summary_overall 2 1 0 100 = 100
    ∧ format_progress_summary_overall 2 1 0 100 ≠ 50
    ∧ format_progress_summary_status (format_progress_summary_overall 2 1 0 100)
        = "All targets achieved!" := by
  norm_num [format_progress_summary_overall, format_progress_summary_status]

/-- C1 amended: `sales.format_kpi_display` (sales.py:565-567) averages the
two already-clamped percentages of `calculate_user_progress`, so raw ratios
of 200 percent meetups and 0 percent sales show 50 percent overall and the
"Good progress!" tier there; `utils.format_progress_summary`
(utils.py:184-187) averages the raw unclamped ratios instead, showing 100
percent overall for the same data. -/
theorem c1_overall_two_paths :
    calculate_user_progress (Except.ok [⟨1, 6, 2025, 1, 100, 0⟩])
        (Except.ok [⟨1, ⟨2025, 6, 10⟩, "meetup", 2, "https://drive.example/m.jpg", ⟨2025, 6, 10⟩⟩])
        (Except.ok []) 1 6 2025
      = some ⟨1, 6, 2025, 2, 1, 100, 0, 100, 0, 1, 0⟩
    ∧ format_kpi_display_overall 100 0 = 50
    ∧ format_kpi_display_status (format_kpi_display_overall 100 0) = "Good progress!"
    ∧ format_progress_summary_overall 2 1 0 100 = 100 := by
  refine ⟨?_, ?_, ?_, ?_⟩
  · norm_num [calculate_user_progress, progressFromTargets, get_monthly_targets,
      get_user_kpi_records, sumValues, targetKeyMatches, matchesFilters,
      List.find?, List.filter, round2, roundHalfEven]
  · norm_num [format_kpi_display_overall]
  · norm_num [format_kpi_display_overall, format_kpi_display_status]
  · norm_num [format_progress_summary_overall]

/-- C2: for a nonnegative aggregated current value, the computed percentage
is the clamped ratio `min(current divided by target times 100, 100)` for a
positive target and 0 for a zero target (never 100 and never a
division-by-zero error), hence lies between 0 and 100; this holds for
`UserProgress.calculate_percentages` (models.py:406-418) exactly and for
the result of `calculate_user_progress` (google_sheets.py:920-927) after
its two-decimal rounding. -/
theorem c2_percentage_formula_and_range (p : UserProgress)
    (hm : 0 ≤ p.current_meetups) (hs : 0 ≤ p.current_sales) :
    ((p.meetup_target = 0 → p.calculate_percentages.meetup_percentage = 0)
      ∧ (0 < p.meetup_target →
          p.calculate_percentages.meetup_percentage
            = min ((p.current_meetups / (p.meetup_target : Rat)) * 100) 100)
      ∧ 0 ≤ p.calculate_percentages.meetup_percentage
      ∧ p.calculate_percentages.meetup_percentage ≤ 100)
    ∧ ((p.sales_target ≤ 0 → p.calculate_percentages.sales_percentage = 0)
      ∧ (0 < p.sales_target →
          p.calculate_percentages.sales_percentage
            = min ((p.current_sales / p.sales_target) * 100) 100)
      ∧ 0 ≤ p.calculate_percentages.sales_percentage
      ∧ p.calculate_percentages.sales_percentage ≤ 100)
    ∧ (∀ (tFetch : Except Unit (List TargetRow))
        (mFetch sFetch : Except Unit (List RecordRow)) (uid m y : Nat)
        (out : ProgressOut),
        valuesNonneg mFetch → valuesNonneg sFetch →
        calculate_user_progress tFetch mFetch sFetch uid m y = some out →
        (out.meetup_target = 0 → out.meetup_percentage = 0)
        ∧ 0 ≤ out.meetup_percentage ∧ out.meetup_percentage ≤ 100
        ∧ (out.sales_target ≤ 0 → out.sales_percentage = 0)
        ∧ 0 ≤ out.sales_percentage ∧ out.sales_percentage ≤ 100) := by
  have hmp : p.calculate_percentages.meetup_percentage
      = if 0 < p.meetup_target then
          min ((p.current_meetups / (p.meetup_target : Rat)) * 100) 100
        else 0 := rfl
  have hsp : p.calculate_percentages.sales_percentage
      = if 0 < p.sales_target then
          min ((p.current_sales / p.sales_target) * 100) 100
        else 0 := rfl
  refine ⟨⟨?_, ?_, ?_, ?_⟩, ⟨?_, ?_, ?_, ?_⟩, ?_⟩
  · intro h
    rw [hmp]
    simp [h]
  · intro h
    rw [hmp, if_pos h]
  · rw [hmp]
    split_ifs with h
    · exact (clamped_pct_bounds hm (by exact_mod_cast h)).1
    · norm_num
  · rw [hmp]
    split_ifs with h
    · exact (clamped_pct_bounds hm (by exact_mod_cast h)).2
    · norm_num
  · intro h
    rw [hsp, if_neg (not_lt.mpr h)]
  · intro h
    rw [hsp, if_pos h]
  · rw [hsp]
    split_ifs with h
    · exact (clamped_pct_bounds hs h).1
    · norm_num
  · rw [hsp]
    split_ifs with h
    · exact (clamped_pct_bounds hs h).2
    · norm_num
  · intro tFetch mFetch sFetch uid m y out hmF hsF heq
    rcases htg : get_monthly_targets tFetch uid m y with _ | targets
    · unfold calculate_user_progress at heq
      rw [htg] at heq
      exact absurd heq (by simp)
    · have heq2 : some (progressFromTargets targets mFetch sFetch uid m y) = some out := by
        rw [← heq]
        unfold calculate_user_progress
        rw [htg]
      obtain rfl : progressFromTargets targets mFetch sFetch uid m y = out :=
        Option.some.inj heq2
      have hcm : 0 ≤ sumValues (get_user_kpi_records mFetch uid (some m) (some y) (some "meetup")) :=
        sumValues_nonneg (get_user_kpi_records_values_nonneg hmF uid (some m) (some y) (some "meetup"))
      have hcs : 0 ≤ sumValues (get_user_kpi_records sFetch uid (some m) (some y) (some "sale")) :=
        sumValues_nonneg (get_user_kpi_records_values_nonneg hsF uid (some m) (some y) (some "sale"))
      have hmt : (progressFromTargets targets mFetch sFetch uid m y).meetup_target
          = targets.meetup_target := rfl
      have hmpct : (progressFromTargets targets mFetch sFetch uid m y).meetup_percentage
          = round2 (if 0 < targets.meetup_target then
              min ((sumValues (get_user_kpi_records mFetch uid (some m) (some y) (some "meetup"))
                  / (targets.meetup_target : Rat)) * 100) 100
            else 0) := rfl
      have hst : (progressFromTargets targets mFetch sFetch uid m y).sales_target
          = targets.sales_target := rfl
      have hspct : (progressFromTargets targets mFetch sFetch uid m y).sales_percentage
          = round2 (if 0 < targets.sales_target then
              min ((sumValues (get_user_kpi_records sFetch uid (some m) (some y) (some "sale"))
                  / targets.sales_target) * 100) 100
            else 0) := rfl
      refine ⟨?_, ?_, ?_, ?_, ?_, ?_⟩
      · intro h0
        rw [hmt] at h0
        rw [hmpct, if_neg (by omega), round2_zero]
      · rw [hmpct]
        split_ifs with h
        · exact round2_nonneg (clamped_pct_bounds hcm (by exact_mod_cast h)).1
        · rw [round2_zero]
      · rw [hmpct]
        split_ifs with h
        · exact round2_le_100 (clamped_pct_bounds hcm (by exact_mod_cast h)).2
        · rw [round2_zero]
          norm_num
      · intro h0
        rw [hst] at h0
        rw [hspct, if_neg (not_lt.mpr h0), round2_zero]
      · rw [hspct]
        split_ifs with h
        · exact round2_nonneg (clamped_pct_bounds hcs h).1
        · rw [round2_zero]
      · rw [hspct]
        split_ifs with h
        · exact round2_le_100 (clamped_pct_bounds hcs h).2
        · rw [round2_zero]
          norm_num

/-- C2 witness: the spec's own scenario, 25 meetups against a target of 10
clamps to 100 percent and 600 sales against a target of 1000 give 60
percent. -/
theorem c2_witness :
    (UserProgress.calculate_percentages ⟨1, 25, 10, 0, 600, 1000, 0, 6, 2025⟩).meetup_percentage = 100
    ∧ (UserProgress.calculate_percentages ⟨1, 25, 10, 0, 600, 1000, 0, 6, 2025⟩).sales_percentage = 60 := by
  have h := c2_percentage_formula_and_range ⟨1, 25, 10, 0, 600, 1000, 0, 6, 2025⟩
    (by norm_num) (by norm_num)
  constructor
  · rw [h.1.2.1 (by norm_num)]
    norm_num [min_def]
  · rw [h.2.1.2.1 (by norm_num)]
    norm_num [min_def]

/-- C3: when the Targets sheet holds no row keyed by the user, month and
year, `get_monthly_targets` finds nothing and `calculate_user_progress`
returns `None` (google_sheets.py:906-910), not a zeroed progress result. -/
theorem c3_no_target_no_progress (trows : List TargetRow)
    (mFetch sFetch : Except Unit (List RecordRow)) (uid m y : Nat)
    (h : ∀ t ∈ trows, ¬(t.user_id = uid ∧ t.month = m ∧ t.year = y)) :
    get_monthly_targets (Except.ok trows) uid m y = none
    ∧ calculate_user_progress (Except.ok trows) mFetch sFetch uid m y = none := by
  have hfind : trows.find? (targetKeyMatches uid m y) = none := by
    rw [List.find?_eq_none]
    intro t ht hmatch
    exact h t ht (by simpa [targetKeyMatches, and_assoc] using hmatch)
  have hget : get_monthly_targets (Except.ok trows) uid m y = none := by
    simpa [get_monthly_targets] using hfind
  refine ⟨hget, ?_⟩
  unfold calculate_user_progress
  rw [hget]

/-- C3 witness: a user with no targets ever set has no progress for June
2025. -/
theorem c3_witness :
    get_monthly_targets (Except.ok []) 42 6 2025 = none
    ∧ calculate_user_progress (Except.ok []) (Except.ok []) (Except.ok []) 42 6 2025 = none :=
  c3_no_target_no_progress [] (Except.ok []) (Except.ok []) 42 6 2025 (by simp)

/-- C4: a stored record enters the aggregation for a month and year exactly
when its user matches and its `record_date` (the activity date) falls in
that month and year and its type matches (google_sheets.py:852-864); the
filter is invariant under any change of `submission_date`, and a concrete
record dated February with a March submission date is excluded from a March
aggregation. -/
theorem c4_record_filter_by_activity_date :
    (∀ (rows : List RecordRow) (uid m y : Nat) (tp : String) (r : RecordRow),
      r ∈ get_user_kpi_records (Except.ok rows) uid (some m) (some y) (some tp)
        ↔ r ∈ rows ∧ r.user_id = uid ∧ r.record_date.month = m
            ∧ r.record_date.year = y ∧ r.record_type = tp)
    ∧ (∀ (rows : List RecordRow) (uid m y : Nat) (tp : String) (f : DateTime → DateTime),
        get_user_kpi_records (Except.ok (rows.map (setSubmissionDate f))) uid
            (some m) (some y) (some tp)
          = (get_user_kpi_records (Except.ok rows) uid (some m) (some y) (some tp)).map
              (setSubmissionDate f))
    ∧ get_user_kpi_records
        (Except.ok [⟨7, ⟨2025, 2, 20⟩, "meetup", 3, "https://drive.example/f.jpg", ⟨2025, 3, 2⟩⟩])
        7 (some 3) (some 2025) (some "meetup") = [] := by
  refine ⟨?_, ?_, ?_⟩
  · intro rows uid m y tp r
    simp only [get_user_kpi_records, List.mem_filter, matchesFilters,
      Bool.and_eq_true, beq_iff_eq]
    tauto
  · intro rows uid m y tp f
    simp only [get_user_kpi_records]
    induction rows with
    | nil => rfl
    | cons r rs ih =>
      rw [List.map_cons, List.filter_cons, List.filter_cons,
        matchesFilters_setSubmissionDate]
      by_cases h : matchesFilters uid (some m) (some y) (some tp) r
      · rw [if_pos h, if_pos h, List.map_cons, ih]
      · rw [if_neg h, if_neg h, ih]
  · rfl

/-- C5: the claim states that any Target Store or Record Store lookup
failure surfaces as an unable-to-compute condition. A failed Records-sheet
fetch is swallowed by the handlers of google_sheets.py:886-891, which
return an empty list, so `calculate_user_progress` returns a progress
result whose current sums are zero instead of failing: with a target of 5
meetups and 1000 sales on file, both fetches failing yields a full progress
dictionary with zeroed sums and percentages. -/
theorem c5_counterexample :
    calculate_user_progress (Except.ok [⟨1, 6, 2025, 5, 1000, 0⟩])
        (Except.error ()) (Except.error ()) 1 6 2025
      = some ⟨1, 6, 2025, 0, 5, 0, 0, 1000, 0, 0, 0⟩
    ∧ calculate_user_progress (Except.ok [⟨1, 6, 2025, 5, 1000, 0⟩])
        (Except.error ()) (Except.error ()) 1 6 2025 ≠ none := by
  have h : calculate_user_progress (Except.ok [⟨1, 6, 2025, 5, 1000, 0⟩])
      (Except.error ()) (Except.error ()) 1 6 2025
      = some ⟨1, 6, 2025, 0, 5, 0, 0, 1000, 0, 0, 0⟩ := by
    norm_num [calculate_user_progress, progressFromTargets, get_monthly_targets,
      get_user_kpi_records, sumValues, targetKeyMatches, List.find?,
      round2, roundHalfEven]
  refine ⟨h, ?_⟩
  rw [h]
  exact Option.some_ne_none _

/-- C5 amended: a failed Targets-sheet fetch makes `calculate_user_progress`
return `None` (indistinguishable from no target being set); a failed
Records-sheet fetch is swallowed into an empty record list, so whenever a
target row exists the call returns a progress result whose current sums
are zero rather than an unable-to-compute condition. -/
theorem c5_lookup_failure_behavior :
    (∀ (mFetch sFetch : Except Unit (List RecordRow)) (uid m y : Nat),
        calculate_user_progress (Except.error ()) mFetch sFetch uid m y = none)
    ∧ (∀ (tFetch : Except Unit (List TargetRow)) (uid m y : Nat) (out : ProgressOut),
        calculate_user_progress tFetch (Except.error ()) (Except.error ()) uid m y = some out →
        out.current_meetups = 0 ∧ out.current_sales = 0) := by
  constructor
  · intro mFetch sFetch uid m y
    rfl
  · intro tFetch uid m y out heq
    rcases htg : get_monthly_targets tFetch uid m y with _ | targets
    · unfold calculate_user_progress at heq
      rw [htg] at heq
      exact absurd heq (by simp)
    · have heq2 : some (progressFromTargets targets (Except.error ()) (Except.error ()) uid m y)
          = some out := by
        rw [← heq]
        unfold calculate_user_progress
        rw [htg]
      obtain rfl : progressFromTargets targets (Except.error ()) (Except.error ()) uid m y = out :=
        Option.some.inj heq2
      exact ⟨rfl, rfl⟩

/-- C6: upserting a target key twice leaves the lookup returning the second
pair of values with the second upsert's `created_date`, and, when the store
held at most one row for the key, exactly one row for the key survives
(google_sheets.py:549-643). -/
theorem c6_target_upsert (rows : List TargetRow) (uid m y : Nat)
    (mt1 : Nat) (st1 : Rat) (tm1 : Nat) (mt2 : Nat) (st2 : Rat) (tm2 : Nat)
    (hinv : countTargetKey rows uid m y ≤ 1) :
    get_monthly_targets
        (Except.ok (set_monthly_targets (set_monthly_targets rows uid m y mt1 st1 tm1)
          uid m y mt2 st2 tm2)) uid m y
      = some ⟨uid, m, y, mt2, st2, tm2⟩
    ∧ countTargetKey (set_monthly_targets (set_monthly_targets rows uid m y mt1 st1 tm1)
          uid m y mt2 st2 tm2) uid m y = 1 := by
  have h1 : countTargetKey (set_monthly_targets rows uid m y mt1 st1 tm1) uid m y = 1 :=
    countTargetKey_set_monthly_targets rows uid m y mt1 st1 tm1 hinv
  constructor
  · simpa [get_monthly_targets] using
      find?_set_monthly_targets (set_monthly_targets rows uid m y mt1 st1 tm1)
        uid m y mt2 st2 tm2
  · exact countTargetKey_set_monthly_targets _ uid m y mt2 st2 tm2 (by omega)

/-- C6 witness: the spec's own scenario, targets (10, 500) then (20, 1000)
for March 2025 leave the lookup at (20, 1000) and one surviving row. -/
theorem c6_witness :
    get_monthly_targets
        (Except.ok (set_monthly_targets (set_monthly_targets [] 3 3 2025 10 500 1)
          3 3 2025 20 1000 2)) 3 3 2025
      = some ⟨3, 3, 2025, 20, 1000, 2⟩
    ∧ countTargetKey (set_monthly_targets (set_monthly_targets [] 3 3 2025 10 500 1)
          3 3 2025 20 1000 2) 3 3 2025 = 1 :=
  c6_target_upsert [] 3 3 2025 10 500 1 20 1000 2 (by simp [countTargetKey])

/-- C7: a registration attempt for a user id already on the Users sheet is
rejected by the duplicate check of google_sheets.py:332-336 with no insert
and no overwrite, and the lookup still returns the original registration
row unchanged. -/
theorem c7_duplicate_registration (urows : List UserRow) (u orig : UserRow)
    (h : get_user_by_id urows u.user_id = some orig) :
    register_user urows u = (false, urows)
    ∧ get_user_by_id (register_user urows u).snd u.user_id = some orig := by
  have hr : register_user urows u = (false, urows) := by
    unfold register_user
    rw [h]
  refine ⟨hr, ?_⟩
  rw [hr]
  exact h

/-- C7 witness: the spec's own scenario, re-registering user 42 is rejected
and the original row survives. -/
theorem c7_witness :
    register_user [⟨42, "Alice", "Malaysia", "0123456789", "Boss", "2025-01-02", "sales"⟩]
        ⟨42, "Mallory", "Nowhere", "0999999999", "Eve", "2025-03-04", "sales"⟩
      = (false, [⟨42, "Alice", "Malaysia", "0123456789", "Boss", "2025-01-02", "sales"⟩])
    ∧ get_user_by_id
        (register_user [⟨42, "Alice", "Malaysia", "0123456789", "Boss", "2025-01-02", "sales"⟩]
          ⟨42, "Mallory", "Nowhere", "0999999999", "Eve", "2025-03-04", "sales"⟩).snd 42
      = some ⟨42, "Alice", "Malaysia", "0123456789", "Boss", "2025-01-02", "sales"⟩ :=
  c7_duplicate_registration
    [⟨42, "Alice", "Malaysia", "0123456789", "Boss", "2025-01-02", "sales"⟩]
    ⟨42, "Mallory", "Nowhere", "0999999999", "Eve", "2025-03-04", "sales"⟩
    ⟨42, "Alice", "Malaysia", "0123456789", "Boss", "2025-01-02", "sales"⟩
    (by rfl)

/-- C8: the claim states that a sale value passes validation exactly when
it is strictly positive and at most 100000, and that 0 and values above
100000 are rejected before storage on every submission path. The bot's sale
path rejects only negative amounts and amounts above 1000000
(sales.py:1098-1110), and `record_kpi_submission` (google_sheets.py:774-777)
checks nothing but the record type: a sale of value 0, and one of 500000,
pass the input handler and are appended to the Records sheet, though the
model validator `KPIRecord.validate` would reject both. -/
theorem c8_counterexample :
    sales_amount_input_accepts 0 = true
    ∧ sales_amount_input_accepts 500000 = true
    ∧ record_kpi_submission [] 42 "sale" 0 "https://drive.example/p.jpg"
        ⟨2025, 6, 10⟩ ⟨2025, 6, 10⟩
      = (true, [⟨42, ⟨2025, 6, 10⟩, "sale", 0, "https://drive.example/p.jpg", ⟨2025, 6, 10⟩⟩])
    ∧ KPIRecord_validate_sale_value 0 = false
    ∧ KPIRecord_validate_sale_value 500000 = false := by
  refine ⟨?_, ?_, rfl, ?_, ?_⟩
  · norm_num [sales_amount_input_accepts]
  · norm_num [sales_amount_input_accepts]
  · norm_num [KPIRecord_validate_sale_value]
  · norm_num [KPIRecord_validate_sale_value]

/-- C8 amended: the model validator `KPIRecord.validate` accepts a sale
value exactly when it is strictly positive and at most 100000
(models.py:279-283), but the conversational path accepts exactly the
values between 0 and 1000000 inclusive (sales.py:1098-1110) and
`record_kpi_submission` stores any value whatsoever for a valid record
type (google_sheets.py:774-777), so 0 and values up to 1000000 reach
storage. -/
theorem c8_sale_value_paths :
    (∀ v : Rat, sales_amount_input_accepts v = true ↔ (0 ≤ v ∧ v ≤ 1000000))
    ∧ (∀ v : Rat, KPIRecord_validate_sale_value v = true ↔ (0 < v ∧ v ≤ 100000))
    ∧ (∀ (rows : List RecordRow) (uid : Nat) (v : Rat) (link : String) (d now : DateTime),
        record_kpi_submission rows uid "sale" v link d now
          = (true, rows ++ [⟨uid, d, "sale", v, link, now⟩])) := by
  refine ⟨?_, ?_, ?_⟩
  · intro v
    unfold sales_amount_input_accepts
    split_ifs with h1 h2
    · simp only [Bool.false_eq_true, false_iff, not_and]
      intro h
      linarith
    · simp only [Bool.false_eq_true, false_iff, not_and]
      intro h
      linarith
    · simp only [true_iff]
      exact ⟨not_lt.mp h1, not_lt.mp h2⟩
  · intro v
    unfold KPIRecord_validate_sale_value
    split_ifs with h1 h2
    · simp only [Bool.false_eq_true, false_iff, not_and]
      intro h
      linarith
    · simp only [Bool.false_eq_true, false_iff, not_and]
      intro h
      linarith
    · simp only [true_iff]
      exact ⟨not_le.mp h1, not_lt.mp h2⟩
  · intro rows uid v link d now
    rfl

/-- C9: the claim states that a phone string is valid exactly when, after
trimming, it is non-empty, drawn from digits, space, plus, minus and
parentheses, of length 7 to 20, and contains at least one digit. The phone
check of `User.validate` (models.py:79-88) never requires a digit: the
seven-character string of plus signs passes it. -/
theorem c9_counterexample :
    User_validate_phone (List.replicate 7 '+') = true
    ∧ (List.replicate 7 '+').any Char.isDigit = false := by
  constructor
  · decide
  · decide

/-- C9 amended: a phone string passes `User.validate` exactly when its
stripped form is non-empty, every character is an ASCII digit, whitespace,
plus, minus or a parenthesis, and the stripped length lies between 7 and
20; no digit is required. -/
theorem c9_phone_validation (s : List Char) :
    User_validate_phone s = true
      ↔ (pyStrip s ≠ [] ∧ (∀ c ∈ pyStrip s, phoneCharOk c = true)
          ∧ 7 ≤ (pyStrip s).length ∧ (pyStrip s).length ≤ 20) := by
  unfold User_validate_phone
  simp [Bool.and_eq_true, List.all_eq_true, List.isEmpty_iff, decide_eq_true_eq,
    and_assoc]

/-- C10: after a successful `add_admin` the very next `is_admin` sees the
user as admin, and after a successful `remove_admin` it does not: both
mutations update the in-memory cache synchronously with the backing sheet
(auth.py:163-174 and 218-234), so no explicit cache refresh is needed. -/
theorem c10_admin_cache_sync (s : AuthState) (u : Nat) (name : String) (now : Nat) :
    ((add_admin s u name now).fst = true →
      (is_admin (add_admin s u name now).snd u).fst = true)
    ∧ ((remove_admin s u).fst = true →
      (is_admin (remove_admin s u).snd u).fst = false) := by
  have hinit := is_admin_initializes s u
  constructor
  · intro _
    unfold add_admin
    by_cases hadm : (is_admin s u).fst = true
    · rw [if_pos hadm]
      rw [is_admin_of_initialized (by exact hinit)]
      rw [is_admin_fst] at hadm
      exact hadm
    · rw [if_neg hadm]
      rw [is_admin_of_initialized (by exact hinit)]
      exact cacheAdd_contains _ u
  · intro hok
    by_cases hadm : (is_admin s u).fst = true
    · rcases hsheet : ((is_admin s u).snd).admin_sheet with _ | rows
      · exfalso
        unfold remove_admin at hok
        rw [hadm, Bool.not_true, if_neg (by simp), hsheet] at hok
        simp at hok
      · have hrm : remove_admin s u
            = (true,
              { (is_admin s u).snd with
                  admin_sheet := some (clearFirstAdminRow rows u),
                  admin_cache := (((is_admin s u).snd).admin_cache).filter (fun x => x != u) }) := by
          unfold remove_admin
          rw [hadm, Bool.not_true, if_neg (by simp), hsheet]
        rw [hrm]
        rw [is_admin_of_initialized (by exact hinit)]
        exact filter_ne_contains _ u
    · have hf : (is_admin s u).fst = false := by
        revert hadm
        cases (is_admin s u).fst <;> simp
      have hrm : remove_admin s u = (true, (is_admin s u).snd) := by
        unfold remove_admin
        rw [hf, Bool.not_false, if_pos rfl]
      rw [hrm]
      rw [is_admin_of_initialized hinit]
      have hm := is_admin_fst s u
      rw [hm] at hf
      exact hf
